import Mathlib

set_option maxRecDepth 4096

/-!
Verification of the company-records service: a shallow embedding of the
backend's validation layer (internal/service/company.go), storage accessor
(internal/repository/company.go) and HTTP boundary (handlers), together
with theorems settling the specification claims about them.

Go strings are modelled by Lean `String`; Go `len` on a string counts
bytes, modelled by `String.utf8ByteSize`.  Go errors are modelled by
`DBError` at the storage layer (so that identity comparison with
`sql.ErrNoRows` and message-string comparison can be told apart) and by
their message strings at the service layer, which is all the handlers
inspect.  SQL result-set ordering is modelled relationally, since
`ORDER BY date_created DESC` determines the order only up to ties.
-/

/-- Whitespace set of Go `unicode.IsSpace` restricted to the Latin-1 range,
which is what `strings.TrimSpace` strips from both ends. -/
def goIsSpace (c : Char) : Bool :=
  c = '\t' || c = '\n' || c = Char.ofNat 0x0b || c = Char.ofNat 0x0c ||
  c = '\r' || c = ' ' || c = Char.ofNat 0x85 || c = Char.ofNat 0xa0

/-- Go `strings.TrimSpace`: drop whitespace from both ends. -/
def goTrimSpace (s : String) : String :=
  ⟨((s.data.dropWhile goIsSpace).reverse.dropWhile goIsSpace).reverse⟩

/-- Go `len` on a string: the number of bytes of its UTF-8 encoding. -/
def goLen (s : String) : Nat :=
  s.utf8ByteSize

/-- The `api.Company` record (id and timestamps abstracted to numbers). -/
structure Company where
  id : Nat
  jurisdiction : String
  companyName : String
  companyAddress : String
  natureOfBusiness : Option String
  numberOfDirectors : Option Int
  numberOfShareholders : Option Int
  secCode : Option String
  dateCreated : Int
  dateUpdated : Int
deriving DecidableEq

/-- The `api.CreateCompanyRequest` body. -/
structure CreateCompanyRequest where
  jurisdiction : String
  companyName : String
  companyAddress : String
  natureOfBusiness : Option String
  numberOfDirectors : Option Int
  numberOfShareholders : Option Int
  secCode : Option String
deriving DecidableEq

/-- The `api.GetCompaniesParams` query parameters. -/
structure GetCompaniesParams where
  limit : Option Int
  offset : Option Int
  jurisdiction : Option String
deriving DecidableEq

/-- The `api.CompaniesResponse` list envelope. -/
structure CompaniesResponse where
  companies : List Company
  total : Nat
  limit : Int
  offset : Int
deriving DecidableEq

/-- The fixed jurisdiction list from `validateCreateRequest`. -/
def validJurisdictions : List String :=
  ["UK", "Singapore", "Caymens"]

/-- True when an optional numeric field is present and outside `[lo, hi]`
(the `*v < lo || *v > hi` checks of `validateCreateRequest`). -/
def optionOutOfRange (o : Option Int) (lo hi : Int) : Bool :=
  match o with
  | some v => decide (v < lo) || decide (v > hi)
  | none => false

/-- `companyService.validateCreateRequest`: the checks run in source order,
the first failing check produces the error.  Note the length check is on
the raw, untrimmed name (`len(req.CompanyName)`). -/
def validateCreateRequest (req : CreateCompanyRequest) : Except String Unit :=
  if goTrimSpace req.companyName = "" then
    .error "company name is required"
  else if goLen req.companyName > 255 then
    .error "company name cannot exceed 255 characters"
  else if goTrimSpace req.companyAddress = "" then
    .error "company address is required"
  else if validJurisdictions.contains req.jurisdiction = false then
    .error "invalid jurisdiction: must be one of [UK Singapore Caymens]"
  else if optionOutOfRange req.numberOfDirectors 1 100 then
    .error "number of directors must be between 1 and 100"
  else if optionOutOfRange req.numberOfShareholders 1 1000 then
    .error "number of shareholders must be between 1 and 1000"
  else
    .ok ()

/-- The validation rules exactly as the claim words them: the 255-character
bound applied to the name after trimming.  Used only to exhibit where the
claim and the code part ways. -/
def validateClaimedRules (req : CreateCompanyRequest) : Except String Unit :=
  if goTrimSpace req.companyName = "" then
    .error "company name is required"
  else if (goTrimSpace req.companyName).length > 255 then
    .error "company name cannot exceed 255 characters"
  else if goTrimSpace req.companyAddress = "" then
    .error "company address is required"
  else if validJurisdictions.contains req.jurisdiction = false then
    .error "invalid jurisdiction: must be one of [UK Singapore Caymens]"
  else if optionOutOfRange req.numberOfDirectors 1 100 then
    .error "number of directors must be between 1 and 100"
  else if optionOutOfRange req.numberOfShareholders 1 1000 then
    .error "number of shareholders must be between 1 and 1000"
  else
    .ok ()

/-- Storage-layer errors: `sql.ErrNoRows` is a distinguished value compared
by identity in the repository, while the service layer only ever sees an
error's message string. -/
inductive DBError where
  | noRows
  | other (msg : String)
deriving DecidableEq

/-- The `Error()` message of a storage-layer error; `sql.ErrNoRows` prints
as the fixed string below. -/
def DBError.message : DBError → String
  | .noRows => "sql: no rows in result set"
  | .other m => m

/-- The companies table. -/
structure DB where
  rows : List Company
deriving DecidableEq

/-- `PostgresCompanyRepository.Delete`: `DELETE FROM companies WHERE id = $1`;
when the execution itself fails that error is returned, otherwise zero rows
affected yields `sql.ErrNoRows` and success yields the table without the
matching rows. -/
def repoDelete (execErr : Option DBError) (db : DB) (id : Nat) :
    Except DBError DB :=
  match execErr with
  | some e => .error e
  | none =>
    if (db.rows.filter (fun c => c.id == id)).length = 0 then
      .error .noRows
    else
      .ok ⟨db.rows.filter (fun c => c.id != id)⟩

/-- The `QueryRowContext(...).Scan(...)` step of `GetByID`: a query failure
is returned as-is, no matching row yields `sql.ErrNoRows`, otherwise the
row is scanned. -/
def scanRow (queryErr : Option DBError) (db : DB) (id : Nat) :
    Except DBError Company :=
  match queryErr with
  | some e => .error e
  | none =>
    match db.rows.find? (fun c => c.id == id) with
    | none => .error .noRows
    | some c => .ok c

/-- `PostgresCompanyRepository.GetByID`: maps `sql.ErrNoRows` (compared by
identity) to the absence sentinel `none`, propagates any other error. -/
def repoGetByID (queryErr : Option DBError) (db : DB) (id : Nat) :
    Except DBError (Option Company) :=
  match scanRow queryErr db id with
  | .error .noRows => .ok none
  | .error e => .error e
  | .ok c => .ok (some c)

/-- `companyService.GetCompanyByID` applied to the repository outcome:
wraps storage errors, maps the `nil` sentinel to "company not found". -/
def serviceGetCompanyByID (r : Except DBError (Option Company)) :
    Except String Company :=
  match r with
  | .error e => .error ("failed to retrieve company: " ++ e.message)
  | .ok none => .error "company not found"
  | .ok (some c) => .ok c

/-- The composed get-by-id pipeline: service over repository. -/
def getCompanyByID (queryErr : Option DBError) (db : DB) (id : Nat) :
    Except String Company :=
  serviceGetCompanyByID (repoGetByID queryErr db id)

/-- `companyService.DeleteCompany` applied to the repository outcome: an
error whose message string equals `"sql: no rows in result set"` becomes
"company not found", any other error is wrapped as a generic delete
failure. -/
def serviceDeleteCompany (r : Except DBError DB) : Except String DB :=
  match r with
  | .error e =>
    if e.message = "sql: no rows in result set" then
      .error "company not found"
    else
      .error ("failed to delete company: " ++ e.message)
  | .ok db2 => .ok db2

/-- The composed delete pipeline: service over repository. -/
def deleteCompany (execErr : Option DBError) (db : DB) (id : Nat) :
    Except String DB :=
  serviceDeleteCompany (repoDelete execErr db id)

/-- `companyService.CreateCompany`: validation first; on success the
request is handed verbatim to the repository (the second component records
the request passed to `repo.Create`, `none` when storage was never
called). -/
def createCompany (repoCreate : CreateCompanyRequest → Except DBError Company)
    (req : CreateCompanyRequest) :
    Except String Company × Option CreateCompanyRequest :=
  match validateCreateRequest req with
  | .error e => (.error e, none)
  | .ok _ =>
    match repoCreate req with
    | .error e => (.error ("failed to create company: " ++ e.message), some req)
    | .ok c => (.ok c, some req)

/-- The row built by `PostgresCompanyRepository.Create`: the INSERT binds
the request fields verbatim, the store generates id and timestamps. -/
def repoCreateRow (newId : Nat) (now : Int) (req : CreateCompanyRequest) :
    Company :=
  { id := newId
    jurisdiction := req.jurisdiction
    companyName := req.companyName
    companyAddress := req.companyAddress
    natureOfBusiness := req.natureOfBusiness
    numberOfDirectors := req.numberOfDirectors
    numberOfShareholders := req.numberOfShareholders
    secCode := req.secCode
    dateCreated := now
    dateUpdated := now }

/-- The effective limit of `companyService.ListCompanies`: default 20,
rejected outside `[1, 100]` when provided. -/
def effectiveLimit (params : GetCompaniesParams) : Except String Int :=
  match params.limit with
  | none => .ok 20
  | some l =>
    if l < 1 ∨ l > 100 then .error "limit must be between 1 and 100"
    else .ok l

/-- The effective offset of `companyService.ListCompanies`: default 0,
rejected when provided and negative. -/
def effectiveOffset (params : GetCompaniesParams) : Except String Int :=
  match params.offset with
  | none => .ok 0
  | some o =>
    if o < 0 then .error "offset must be non-negative"
    else .ok o

/-- `companyService.ListCompanies` over a repository oracle; the boolean
records whether `repo.GetAll` was invoked. -/
def listCompanies
    (repoGetAll : Int → Int → Option String → Except String (List Company × Nat))
    (params : GetCompaniesParams) :
    Except String CompaniesResponse × Bool :=
  match effectiveLimit params with
  | .error e => (.error e, false)
  | .ok limit =>
    match effectiveOffset params with
    | .error e => (.error e, false)
    | .ok offset =>
      match repoGetAll limit offset params.jurisdiction with
      | .error e => (.error ("failed to retrieve companies: " ++ e), true)
      | .ok (companies, total) =>
        (.ok { companies := companies, total := total,
               limit := limit, offset := offset }, true)

/-- The WHERE predicate of `GetAll`: an optional exact jurisdiction
filter. -/
def matchesFilter (j : Option String) (c : Company) : Bool :=
  match j with
  | none => true
  | some v => c.jurisdiction == v

/-- Orderings admitted by `ORDER BY date_created DESC`: every later element
has a date less than or equal to every earlier one. -/
def SortedByDateDesc (l : List Company) : Prop :=
  l.Pairwise (fun a b => b.dateCreated ≤ a.dateCreated)

/-- The strict descending-date relation; with pairwise-distinct dates it is
the unique order `ORDER BY date_created DESC` can produce. -/
def dateStrictGT (a b : Company) : Prop :=
  b.dateCreated < a.dateCreated

instance : IsAntisymm Company dateStrictGT :=
  ⟨fun _ _ h1 h2 => absurd (lt_trans h1 h2) (lt_irrefl _)⟩

/-- `PostgresCompanyRepository.GetAll` as a relation on its results: the
total is the count of rows matching the filter (the COUNT query, unaware
of pagination), and the page is a limit-sized window at the given offset
into some ordering of the matching rows admitted by
`ORDER BY date_created DESC`. -/
def GetAllSpec (db : DB) (limit offset : Nat) (j : Option String)
    (page : List Company) (total : Nat) : Prop :=
  total = (db.rows.filter (matchesFilter j)).length ∧
  ∃ ordered, ordered.Perm (db.rows.filter (matchesFilter j)) ∧
    SortedByDateDesc ordered ∧
    page = (ordered.drop offset).take limit

/-- Wire-level response bodies produced by the handlers. -/
inductive HandlerBody where
  | errorEnvelope (msg : String)
  | companyBody (c : Company)
  | listBody (r : CompaniesResponse)
  | empty
deriving DecidableEq

/-- `CompanyHandlers.CreateCompany` on the service outcome: any service
error is answered with status 400 and the error's own message in the
envelope. -/
def handleCreateCompany (r : Except String Company) : Nat × HandlerBody :=
  match r with
  | .error e => (400, .errorEnvelope e)
  | .ok c => (201, .companyBody c)

/-- `CompanyHandlers.GetCompanies` on the service outcome: any service
error is answered with status 500 and a fixed opaque message. -/
def handleGetCompanies (r : Except String CompaniesResponse) :
    Nat × HandlerBody :=
  match r with
  | .error _ => (500, .errorEnvelope "Failed to retrieve companies")
  | .ok resp => (200, .listBody resp)

/-- `CompanyHandlers.GetCompanyByID` on the service outcome. -/
def handleGetCompanyByID (r : Except String Company) : Nat × HandlerBody :=
  match r with
  | .error e =>
    if e = "company not found" then (404, .errorEnvelope "Company not found")
    else (500, .errorEnvelope "Failed to retrieve company")
  | .ok c => (200, .companyBody c)

/-- `CompanyHandlers.DeleteCompany` on the service outcome. -/
def handleDeleteCompany (r : Except String DB) : Nat × HandlerBody :=
  match r with
  | .error e =>
    if e = "company not found" then (404, .errorEnvelope "Company not found")
    else (500, .errorEnvelope "Failed to delete company")
  | .ok _ => (204, .empty)

/-- A 256-byte name: 255 letters and a trailing space, so it is 255
characters after trimming but 256 before. -/
def nameOverflow : String := ⟨List.replicate 255 'a' ++ [' ']⟩

def reqTrimBoundary : CreateCompanyRequest :=
  { jurisdiction := "UK", companyName := nameOverflow, companyAddress := "1 Main St",
    natureOfBusiness := none, numberOfDirectors := none,
    numberOfShareholders := none, secCode := none }

def reqDemo : CreateCompanyRequest :=
  { jurisdiction := "Singapore", companyName := " Acme Ltd ", companyAddress := "1 Main St",
    natureOfBusiness := none, numberOfDirectors := some 3,
    numberOfShareholders := some 10, secCode := none }

def demoRepoGetAll : Int → Int → Option String → Except String (List Company × Nat) :=
  fun _ _ _ => .ok ([], 0)

def demoRepoCreate : CreateCompanyRequest → Except DBError Company :=
  fun _ => .error (.other "db down")

def reqFrance : CreateCompanyRequest :=
  { jurisdiction := "France", companyName := "Acme Ltd", companyAddress := "1 Main St",
    natureOfBusiness := none, numberOfDirectors := none,
    numberOfShareholders := none, secCode := none }

def reqAcme : CreateCompanyRequest :=
  { jurisdiction := "UK", companyName := "Acme Ltd", companyAddress := "1 Main St",
    natureOfBusiness := none, numberOfDirectors := none,
    numberOfShareholders := none, secCode := none }

def reqPadded : CreateCompanyRequest :=
  { jurisdiction := "Caymens", companyName := "  Acme Ltd  ",
    companyAddress := " 1 Main St ", natureOfBusiness := none,
    numberOfDirectors := none, numberOfShareholders := none, secCode := none }

def companyOne : Company :=
  { id := 1, jurisdiction := "UK", companyName := "Acme Ltd",
    companyAddress := "1 Main St", natureOfBusiness := none,
    numberOfDirectors := none, numberOfShareholders := none,
    secCode := none, dateCreated := 10, dateUpdated := 10 }

def dbOne : DB := ⟨[companyOne]⟩

def dbEmpty : DB := ⟨[]⟩

def companySolo : Company :=
  { id := 3, jurisdiction := "Singapore", companyName := "Solo",
    companyAddress := "2 High St", natureOfBusiness := none,
    numberOfDirectors := none, numberOfShareholders := none,
    secCode := none, dateCreated := 4, dateUpdated := 4 }

def dbSolo : DB := ⟨[companySolo]⟩

def mkCompany (i : Nat) (d : Int) : Company :=
  { id := i, jurisdiction := "UK", companyName := "C", companyAddress := "A",
    natureOfBusiness := none, numberOfDirectors := none,
    numberOfShareholders := none, secCode := none,
    dateCreated := d, dateUpdated := d }

def rowTiedA : Company := mkCompany 1 5
def rowTiedB : Company := mkCompany 2 5
def dbTied : DB := ⟨[rowTiedA, rowTiedB]⟩

def rowD3 : Company := mkCompany 11 3
def rowD2 : Company := mkCompany 12 2
def rowD1 : Company := mkCompany 13 1
def dbDistinct : DB := ⟨[rowD3, rowD2, rowD1]⟩

/-- C1 counterexample: a request whose company_name is 255 characters after
trimming (256 before) satisfies every rule as the claim states them, yet
`validateCreateRequest` rejects it, because the code bounds the untrimmed
length. -/
theorem c1_counterexample :
    validateClaimedRules reqTrimBoundary = Except.ok () ∧
    validateCreateRequest reqTrimBoundary =
      Except.error "company name cannot exceed 255 characters" :=
  ⟨by rfl, by rfl⟩

/-- C1 (amended): the create-company validation rules run in the stated
order with the first failure producing the error, where the 255 bound
applies to the raw untrimmed company_name; a request passing every rule
validates successfully. -/
theorem c1_validation_order (req : CreateCompanyRequest) :
    (goTrimSpace req.companyName = "" →
      validateCreateRequest req = .error "company name is required") ∧
    (goTrimSpace req.companyName ≠ "" → 255 < goLen req.companyName →
      validateCreateRequest req = .error "company name cannot exceed 255 characters") ∧
    (goTrimSpace req.companyName ≠ "" → goLen req.companyName ≤ 255 →
      goTrimSpace req.companyAddress = "" →
      validateCreateRequest req = .error "company address is required") ∧
    (goTrimSpace req.companyName ≠ "" → goLen req.companyName ≤ 255 →
      goTrimSpace req.companyAddress ≠ "" →
      validJurisdictions.contains req.jurisdiction = false →
      validateCreateRequest req =
        .error "invalid jurisdiction: must be one of [UK Singapore Caymens]") ∧
    (goTrimSpace req.companyName ≠ "" → goLen req.companyName ≤ 255 →
      goTrimSpace req.companyAddress ≠ "" →
      validJurisdictions.contains req.jurisdiction = true →
      optionOutOfRange req.numberOfDirectors 1 100 = true →
      validateCreateRequest req =
        .error "number of directors must be between 1 and 100") ∧
    (goTrimSpace req.companyName ≠ "" → goLen req.companyName ≤ 255 →
      goTrimSpace req.companyAddress ≠ "" →
      validJurisdictions.contains req.jurisdiction = true →
      optionOutOfRange req.numberOfDirectors 1 100 = false →
      optionOutOfRange req.numberOfShareholders 1 1000 = true →
      validateCreateRequest req =
        .error "number of shareholders must be between 1 and 1000") ∧
    (goTrimSpace req.companyName ≠ "" → goLen req.companyName ≤ 255 →
      goTrimSpace req.companyAddress ≠ "" →
      validJurisdictions.contains req.jurisdiction = true →
      optionOutOfRange req.numberOfDirectors 1 100 = false →
      optionOutOfRange req.numberOfShareholders 1 1000 = false →
      validateCreateRequest req = .ok ()) := by
  refine ⟨?_, ?_, ?_, ?_, ?_, ?_, ?_⟩ <;>
    intros <;>
    simp only [validateCreateRequest] <;>
    simp_all [Nat.not_lt.mpr, Nat.not_lt]

/-- C1 witness: a concrete request satisfying every rule passes. -/
theorem c1_witness :
    validateCreateRequest reqDemo = Except.ok () :=
  (c1_validation_order reqDemo).2.2.2.2.2.2 (by decide)
    (by decide) (by decide) (by decide) (by decide) (by decide)

/-- C2: limit defaults to 20 and is rejected outside [1,100] without
calling storage; offset defaults to 0 and a provided negative offset fails
with a validation error without calling storage; a successful response
carries the effective limit and offset that were handed to storage. -/
theorem c2_list_pagination
    (repo : Int → Int → Option String → Except String (List Company × Nat))
    (params : GetCompaniesParams) :
    (params.limit = none → effectiveLimit params = .ok 20) ∧
    (∀ l, params.limit = some l → (l < 1 ∨ l > 100) →
      listCompanies repo params = (.error "limit must be between 1 and 100", false)) ∧
    (params.offset = none → effectiveOffset params = .ok 0) ∧
    (∀ o, params.offset = some o → o < 0 →
      (listCompanies repo params).2 = false ∧
        ∃ e, (listCompanies repo params).1 = .error e) ∧
    (∀ resp called, listCompanies repo params = (.ok resp, called) →
      called = true ∧
      effectiveLimit params = .ok resp.limit ∧
      effectiveOffset params = .ok resp.offset ∧
      repo resp.limit resp.offset params.jurisdiction = .ok (resp.companies, resp.total)) := by
  refine ⟨fun h => by simp [effectiveLimit, h], ?_, fun h => by simp [effectiveOffset, h], ?_, ?_⟩
  · intro l hl hout
    simp [listCompanies, effectiveLimit, hl, hout]
  · intro o ho hneg
    rcases hl : params.limit with _ | l
    · simp [listCompanies, effectiveLimit, effectiveOffset, hl, ho, hneg]
    · by_cases hout : l < 1 ∨ l > 100
      · simp [listCompanies, effectiveLimit, hl, hout]
      · simp [listCompanies, effectiveLimit, effectiveOffset, hl, hout, ho, hneg]
  · intro resp called h
    unfold listCompanies at h
    split at h
    · exact absurd h (by simp)
    rename_i limit hL
    split at h
    · exact absurd h (by simp)
    rename_i offset hO
    split at h
    · exact absurd h (by simp)
    rename_i companies total hR
    rw [Prod.mk.injEq, Except.ok.injEq] at h
    obtain ⟨h1, h2⟩ := h
    subst h2
    rw [← h1]
    exact ⟨rfl, hL, hO, hR⟩

/-- C2 witness: limit 200 is rejected without a storage call. -/
theorem c2_witness :
    listCompanies demoRepoGetAll ⟨some 200, none, none⟩ =
      (.error "limit must be between 1 and 100", false) :=
  (c2_list_pagination demoRepoGetAll ⟨some 200, none, none⟩).2.1 200 rfl (by decide)

/-- C3: a create request failing validation returns that validation error
and never reaches `repo.Create`; in particular any jurisdiction outside
the fixed set fails validation with nothing persisted. -/
theorem c3_no_persist_on_invalid
    (repoCreate : CreateCompanyRequest → Except DBError Company)
    (req : CreateCompanyRequest) :
    (∀ e, validateCreateRequest req = .error e →
      createCompany repoCreate req = (.error e, none)) ∧
    (validJurisdictions.contains req.jurisdiction = false →
      (createCompany repoCreate req).2 = none ∧
        ∃ e, (createCompany repoCreate req).1 = .error e) := by
  constructor
  · intro e he
    simp [createCompany, he]
  · intro hj
    have hv : ∃ e, validateCreateRequest req = .error e := by
      unfold validateCreateRequest
      split_ifs with h1 h2 h3
      all_goals exact ⟨_, rfl⟩
    obtain ⟨e, he⟩ := hv
    simp [createCompany, he]

/-- C3 witness: jurisdiction "France" is rejected with no storage call. -/
theorem c3_witness :
    (createCompany demoRepoCreate reqFrance).2 = none ∧
      ∃ e, (createCompany demoRepoCreate reqFrance).1 = .error e :=
  (c3_no_persist_on_invalid demoRepoCreate reqFrance).2 (by decide)

/-- Helper: after the repository's delete filters out every row with the
given id, a lookup by that id finds nothing. -/
theorem find_after_filter_ne (rows : List Company) (id : Nat) :
    (rows.filter (fun c => c.id != id)).find? (fun c => c.id == id) = none := by
  rw [List.find?_eq_none]
  intro c hc
  have := List.of_mem_filter hc
  simpa using this

/-- Helper: a generic wrapped delete failure is never the not-found
message. -/
theorem wrapped_delete_ne_not_found (m : String) :
    "failed to delete company: " ++ m ≠ "company not found" := by
  intro h
  have hlen := congrArg String.length h
  rw [String.length_append] at hlen
  have h26 : ("failed to delete company: " : String).length = 26 := by decide
  have h17 : ("company not found" : String).length = 17 := by decide
  omega

/-- C4: provided the execution-level storage error (if any) does not carry
the exact `sql.ErrNoRows` message, delete yields the not-found outcome
exactly when zero rows were affected (never the generic failure), and a
successful delete followed by a fetch of the same id yields not-found;
deleting an existing id succeeds. -/
theorem c4_delete_not_found (execErr : Option DBError) (db : DB) (id : Nat)
    (hmsg : ∀ e, execErr = some e → e.message ≠ "sql: no rows in result set") :
    (deleteCompany execErr db id = .error "company not found" ↔
      execErr = none ∧ (db.rows.filter (fun c => c.id == id)).length = 0) ∧
    (∀ db2, deleteCompany execErr db id = .ok db2 →
      getCompanyByID none db2 id = .error "company not found") ∧
    ((∃ c ∈ db.rows, c.id = id) →
      ∃ db2, deleteCompany none db id = .ok db2) := by
  refine ⟨?_, ?_, ?_⟩
  · cases execErr with
    | some e =>
      have hne := hmsg e rfl
      simp [deleteCompany, repoDelete, serviceDeleteCompany, hne]
      intro h
      exact absurd h (wrapped_delete_ne_not_found _)
    | none =>
      by_cases hz : (db.rows.filter (fun c => c.id == id)).length = 0
      · simp [deleteCompany, repoDelete, serviceDeleteCompany, hz, DBError.message]
      · simp [deleteCompany, repoDelete, serviceDeleteCompany, hz]
  · intro db2 h
    cases execErr with
    | some e =>
      have hne := hmsg e rfl
      simp [deleteCompany, repoDelete, serviceDeleteCompany, hne] at h
    | none =>
      by_cases hz : (db.rows.filter (fun c => c.id == id)).length = 0
      · simp [deleteCompany, repoDelete, serviceDeleteCompany, hz, DBError.message] at h
      · have hdel : deleteCompany none db id =
            .ok ⟨db.rows.filter (fun c => c.id != id)⟩ := by
          simp [deleteCompany, repoDelete, serviceDeleteCompany, hz]
        rw [hdel, Except.ok.injEq] at h
        subst h
        have hf := find_after_filter_ne db.rows id
        simp only [getCompanyByID, repoGetByID, scanRow, serviceGetCompanyByID]
        rw [hf]
  · rintro ⟨c, hc, hcid⟩
    have hz : (db.rows.filter (fun c => c.id == id)).length ≠ 0 := by
      have hmem : c ∈ db.rows.filter (fun c => c.id == id) :=
        List.mem_filter.mpr ⟨hc, by simp [hcid]⟩
      intro h0
      rw [List.length_eq_zero] at h0
      simp [h0] at hmem
    exact ⟨⟨db.rows.filter (fun c => c.id != id)⟩,
      by simp [deleteCompany, repoDelete, serviceDeleteCompany, hz]⟩

/-- C4 witness: deleting the one existing row succeeds. -/
theorem c4_witness :
    ∃ db2, deleteCompany none dbOne 1 = Except.ok db2 :=
  (c4_delete_not_found none dbOne 1 (fun _ h => nomatch h)).2.2
    ⟨companyOne, by simp [dbOne], rfl⟩

/-- C5: with no matching row, `GetByID` returns the absence sentinel
`none` rather than an error, the service maps it to "company not found",
and that outcome differs from every wrapped storage failure. -/
theorem c5_absence_sentinel (db : DB) (id : Nat)
    (habs : db.rows.find? (fun c => c.id == id) = none) :
    repoGetByID none db id = .ok none ∧
    getCompanyByID none db id = .error "company not found" ∧
    (∀ e : DBError,
      (Except.error "company not found" : Except String Company) ≠
        .error ("failed to retrieve company: " ++ e.message)) := by
  refine ⟨?_, ?_, ?_⟩
  · simp only [repoGetByID, scanRow]
    rw [habs]
  · simp only [getCompanyByID, repoGetByID, scanRow, serviceGetCompanyByID]
    rw [habs]
  · intro e h
    rw [Except.error.injEq] at h
    have hlen := congrArg String.length h
    rw [String.length_append] at hlen
    have h28 : ("failed to retrieve company: " : String).length = 28 := by decide
    have h17 : ("company not found" : String).length = 17 := by decide
    omega

/-- C5 witness: lookup of id 7 in an empty table. -/
theorem c5_witness :
    repoGetByID none dbEmpty 7 = Except.ok none ∧
    getCompanyByID none dbEmpty 7 = Except.error "company not found" ∧
    (∀ e : DBError,
      (Except.error "company not found" : Except String Company) ≠
        .error ("failed to retrieve company: " ++ e.message)) :=
  c5_absence_sentinel dbEmpty 7 rfl

/-- C10: the delete service classifies a storage error as not-found iff
its message equals exactly "sql: no rows in result set"; any other message
(including wrapped variants) is surfaced as a generic delete failure; the
repository returns exactly the unwrapped `sql.ErrNoRows` on zero affected
rows. -/
theorem c10_delete_error_classification :
    (∀ e : DBError,
      serviceDeleteCompany (.error e) = .error "company not found" ↔
        e.message = "sql: no rows in result set") ∧
    (∀ e : DBError, e.message ≠ "sql: no rows in result set" →
      serviceDeleteCompany (.error e) =
        .error ("failed to delete company: " ++ e.message)) ∧
    (∀ db id, (db.rows.filter (fun c => c.id == id)).length = 0 →
      repoDelete none db id = .error DBError.noRows ∧
        DBError.noRows.message = "sql: no rows in result set") := by
  refine ⟨?_, ?_, ?_⟩
  · intro e
    by_cases h : e.message = "sql: no rows in result set"
    · simp [serviceDeleteCompany, h]
    · simp [serviceDeleteCompany, h]
      intro hb
      exact absurd hb (wrapped_delete_ne_not_found _)
  · intro e h
    simp [serviceDeleteCompany, h]
  · intro db id hz
    exact ⟨by simp [repoDelete, hz], rfl⟩

/-- C10 witness: a wrapped variant of the no-rows message is surfaced as
a generic delete failure. -/
theorem c10_witness :
    serviceDeleteCompany
        (.error (DBError.other "delete company: sql: no rows in result set")) =
      .error ("failed to delete company: " ++
        "delete company: sql: no rows in result set") :=
  c10_delete_error_classification.2.1
    (DBError.other "delete company: sql: no rows in result set") (by decide)

/-- C7: the total returned by `GetAll` is the count of all stored rows
matching the filter, the same for every limit and offset; an empty table
yields an empty page and total 0. -/
theorem c7_total_independent (db : DB) (limit offset : Nat) (j : Option String)
    (page : List Company) (total : Nat)
    (h : GetAllSpec db limit offset j page total) :
    total = (db.rows.filter (matchesFilter j)).length ∧
    (∀ limit2 offset2 page2 total2,
      GetAllSpec db limit2 offset2 j page2 total2 → total2 = total) ∧
    (db.rows = [] → page = [] ∧ total = 0) := by
  obtain ⟨ht, ordered, hperm, _, hpage⟩ := h
  refine ⟨ht, ?_, ?_⟩
  · intro limit2 offset2 page2 total2 h2
    rw [h2.1, ht]
  · intro he
    have hfil : db.rows.filter (matchesFilter j) = [] := by
      rw [he]; rfl
    have hord : ordered = [] := by
      rw [hfil] at hperm
      exact List.perm_nil.mp hperm
    constructor
    · rw [hpage, hord]
      simp
    · rw [ht, hfil]
      rfl

/-- C7 witness: a one-row table listed with limit 20, offset 0. -/
theorem c7_witness :
    1 = (dbSolo.rows.filter (matchesFilter none)).length ∧
    (∀ limit2 offset2 page2 total2,
      GetAllSpec dbSolo limit2 offset2 none page2 total2 → total2 = 1) ∧
    (dbSolo.rows = [] → [companySolo] = [] ∧ 1 = 0) :=
  c7_total_independent dbSolo 20 0 none [companySolo] 1
    ⟨rfl, [companySolo], by rfl, by simp [SortedByDateDesc], rfl⟩

/-- C9: when validation passes, the request handed to `repo.Create` is
exactly the caller's request — trimming is used only for the emptiness
checks — and the row the INSERT builds carries the request fields
verbatim. -/
theorem c9_stored_verbatim
    (repoCreate : CreateCompanyRequest → Except DBError Company)
    (req : CreateCompanyRequest)
    (hok : validateCreateRequest req = .ok ()) :
    (createCompany repoCreate req).2 = some req ∧
    (∀ newId now,
      (repoCreateRow newId now req).companyName = req.companyName ∧
      (repoCreateRow newId now req).companyAddress = req.companyAddress ∧
      (repoCreateRow newId now req).jurisdiction = req.jurisdiction ∧
      (repoCreateRow newId now req).numberOfDirectors = req.numberOfDirectors ∧
      (repoCreateRow newId now req).numberOfShareholders = req.numberOfShareholders ∧
      (repoCreateRow newId now req).natureOfBusiness = req.natureOfBusiness ∧
      (repoCreateRow newId now req).secCode = req.secCode) := by
  constructor
  · simp only [createCompany, hok]
    cases repoCreate req <;> rfl
  · intro newId now
    exact ⟨rfl, rfl, rfl, rfl, rfl, rfl, rfl⟩

/-- C9 witness: a name and address with surrounding whitespace pass
validation and are handed to storage untrimmed. -/
theorem c9_witness :
    (createCompany (fun _ => Except.error DBError.noRows) reqPadded).2 =
      some reqPadded :=
  (c9_stored_verbatim (fun _ => Except.error DBError.noRows) reqPadded (by rfl)).1

/-- C8 code bug: on a storage failure the create handler responds 400
with the wrapped storage message — leaking the detail — while the other
handlers respond 500 with a fixed opaque message as the claim requires of
all four. -/
theorem c8_create_leaks_storage_error :
    handleCreateCompany
        (createCompany (fun _ => .error (.other "pq: connection refused")) reqAcme).1 =
      (400, .errorEnvelope "failed to create company: pq: connection refused") ∧
    (handleCreateCompany
        (createCompany (fun _ => .error (.other "pq: connection refused")) reqAcme).1).1 ≠
      500 ∧
    handleGetCompanies
        (.error "failed to retrieve companies: pq: connection refused") =
      (500, .errorEnvelope "Failed to retrieve companies") ∧
    handleDeleteCompany
        (.error "failed to delete company: pq: connection refused") =
      (500, .errorEnvelope "Failed to delete company") ∧
    handleGetCompanyByID
        (.error "failed to retrieve company: pq: connection refused") =
      (500, .errorEnvelope "Failed to retrieve company") := by
  refine ⟨by rfl, by intro h; simp only [handleCreateCompany, createCompany] at h; revert h; decide, by rfl, by rfl, by rfl⟩

/-- C6 counterexample: with two rows sharing the same date_created, both
pages of a 1-per-page listing can legitimately return the same row, so the
two sequential pages show a duplicate and a gap. -/
theorem c6_counterexample :
    GetAllSpec dbTied 1 0 none [rowTiedA] 2 ∧
    GetAllSpec dbTied 1 1 none [rowTiedA] 2 ∧
    (2 : Nat) > 1 ∧
    ¬ ([rowTiedA] ++ [rowTiedA]).Nodup ∧
    rowTiedB ∈ dbTied.rows ∧ rowTiedB ∉ [rowTiedA] ++ [rowTiedA] := by
  refine ⟨?_, ?_, by decide, by decide, by decide, by decide⟩
  · refine ⟨rfl, [rowTiedA, rowTiedB], ?_, ?_, rfl⟩
    · rw [show dbTied.rows.filter (matchesFilter none) = [rowTiedA, rowTiedB] from rfl]
    · simp [SortedByDateDesc, rowTiedA, rowTiedB, mkCompany]
  · refine ⟨rfl, [rowTiedB, rowTiedA], ?_, ?_, rfl⟩
    · rw [show dbTied.rows.filter (matchesFilter none) = [rowTiedA, rowTiedB] from rfl]
      exact List.Perm.swap rowTiedA rowTiedB []
    · simp [SortedByDateDesc, rowTiedA, rowTiedB, mkCompany]

/-- Helper: with pairwise distinct dates the admitted ordering is unique. -/
theorem ordered_unique {M o1 o2 : List Company}
    (hdist : M.Pairwise (fun a b => a.dateCreated ≠ b.dateCreated))
    (hp1 : o1.Perm M) (hp2 : o2.Perm M)
    (hs1 : SortedByDateDesc o1) (hs2 : SortedByDateDesc o2) : o1 = o2 := by
  have hsym : ∀ {x y : Company},
      x.dateCreated ≠ y.dateCreated → y.dateCreated ≠ x.dateCreated :=
    fun h => h.symm
  have hd1 : o1.Pairwise (fun a b => a.dateCreated ≠ b.dateCreated) :=
    (hp1.pairwise_iff hsym).mpr hdist
  have hd2 : o2.Pairwise (fun a b => a.dateCreated ≠ b.dateCreated) :=
    (hp2.pairwise_iff hsym).mpr hdist
  have hst1 : List.Sorted dateStrictGT o1 :=
    (hs1.and hd1).imp fun hab =>
      lt_of_le_of_ne hab.1 fun hc => hab.2 hc.symm
  have hst2 : List.Sorted dateStrictGT o2 :=
    (hs2.and hd2).imp fun hab =>
      lt_of_le_of_ne hab.1 fun hc => hab.2 hc.symm
  exact List.eq_of_perm_of_sorted (hp1.trans hp2.symm) hst1 hst2

/-- C6 amended: when the matching rows have pairwise distinct date_created
values, the admitted order is unique (so paging is deterministic), and the
pages at offset 0 and offset = limit together are exactly the matching
rows, with no duplicates and no gaps, sorted descending. -/
theorem c6_pagination_distinct_dates (db : DB) (limit : Nat) (j : Option String)
    (page0 total0 page1 total1)
    (hdist : (db.rows.filter (matchesFilter j)).Pairwise
      (fun a b => a.dateCreated ≠ b.dateCreated))
    (_hlt : limit < (db.rows.filter (matchesFilter j)).length)
    (hle : (db.rows.filter (matchesFilter j)).length ≤ 2 * limit)
    (h0 : GetAllSpec db limit 0 j page0 total0)
    (h1 : GetAllSpec db limit limit j page1 total1) :
    (page0 ++ page1).Perm (db.rows.filter (matchesFilter j)) ∧
    (page0 ++ page1).Nodup ∧
    SortedByDateDesc (page0 ++ page1) ∧
    (∀ page0x total0x, GetAllSpec db limit 0 j page0x total0x → page0x = page0) := by
  obtain ⟨ht0, o0, hp0, hs0, hpg0⟩ := h0
  obtain ⟨ht1, o1, hp1, hs1, hpg1⟩ := h1
  have ho : o1 = o0 := ordered_unique hdist hp1 hp0 hs1 hs0
  subst ho
  have hlen : o1.length = (db.rows.filter (matchesFilter j)).length :=
    hp1.length_eq
  have hcat : page0 ++ page1 = o1 := by
    rw [hpg0, hpg1, List.drop_zero, ← List.take_add, List.take_of_length_le]
    omega
  refine ⟨?_, ?_, ?_, ?_⟩
  · rw [hcat]; exact hp1
  · rw [hcat]
    have hnodupM : (db.rows.filter (matchesFilter j)).Nodup :=
      hdist.imp fun hab hc => hab (congrArg Company.dateCreated hc)
    exact hp1.nodup_iff.mpr hnodupM
  · rw [hcat]; exact hs1
  · intro page0x total0x hx
    obtain ⟨htx, ox, hpx, hsx, hpgx⟩ := hx
    have hox : ox = o1 := ordered_unique hdist hpx hp1 hsx hs1
    rw [hpgx, hpg0, hox]

/-- C6 witness at three rows with distinct dates and page size two. -/
theorem c6_witness :
    ([rowD3, rowD2] ++ [rowD1]).Perm (dbDistinct.rows.filter (matchesFilter none)) ∧
    ([rowD3, rowD2] ++ [rowD1]).Nodup ∧
    SortedByDateDesc ([rowD3, rowD2] ++ [rowD1]) ∧
    (∀ page0x total0x, GetAllSpec dbDistinct 2 0 none page0x total0x →
      page0x = [rowD3, rowD2]) :=
  c6_pagination_distinct_dates dbDistinct 2 none [rowD3, rowD2] 3 [rowD1] 3
    (by decide) (by decide) (by decide)
    ⟨rfl, [rowD3, rowD2, rowD1],
      by rw [show dbDistinct.rows.filter (matchesFilter none) =
          [rowD3, rowD2, rowD1] from rfl],
      by simp [SortedByDateDesc, rowD3, rowD2, rowD1, mkCompany], rfl⟩
    ⟨rfl, [rowD3, rowD2, rowD1],
      by rw [show dbDistinct.rows.filter (matchesFilter none) =
          [rowD3, rowD2, rowD1] from rfl],
      by simp [SortedByDateDesc, rowD3, rowD2, rowD1, mkCompany], rfl⟩

